import Mathlib

/-!
A shallow embedding of the Win32 serial-port wrapper `serial`.

Sources embedded here:

* `include/serial/serial.hpp` : the enumerations, `Timeout`, the members of `Serial`,
  the inline `write<std::string>` overload;
* `src/serial.cpp`            : constructor, move constructor, `open`, move assignment;
* `src/serial.win.cpp`        : `utf8_encode`, `wide_encode`, `list_ports`, `_open`, `close`,
  `write`, destructor, `read`.

Conventions.

* A `std::string` is the list of its bytes, a `std::wstring` the list of its 16-bit code units;
  pointers and OS handles are natural numbers and `nullptr` is `0`.
* The operating system is an environment `Win32` of answer functions together with the list of
  calls issued so far (`List Call`).  Every answer may depend on the calls made before it.
  Calls whose result the code throws away (`SetCommState`, `SetCommTimeouts`, `CloseHandle`)
  are only recorded.
* A `std::size_t` is a natural number and a `std::chrono` tick count an integer.  Where the
  source hands one of them to a Win32 `DWORD` (an unsigned 32-bit parameter or field) the
  value is reduced modulo 2^32, as the implicit conversion does: `DWORD_of_size`,
  `DWORD_of_ticks`.
* A C++ call either returns or leaves through an exception: `Outcome.returned` / `Outcome.threw`.
-/

namespace serial

/-! ## Enumerations and `Timeout` (serial.hpp 43-90) -/

/-- The scoped enumeration `Parity : std::uint8_t`, carried by its underlying value. -/
structure Parity where
  val : Nat
deriving DecidableEq, Repr

/-- Enumerator `Parity::None = 0`. -/
def Parity.None : Parity := ⟨0⟩
/-- Enumerator `Parity::Odd = 1`. -/
def Parity.Odd : Parity := ⟨1⟩
/-- Enumerator `Parity::Even = 2`. -/
def Parity.Even : Parity := ⟨2⟩

/-- The scoped enumeration `ByteSize : std::uint8_t`, carried by its underlying value. -/
structure ByteSize where
  val : Nat
deriving DecidableEq, Repr

/-- Enumerator `ByteSize::Five = 5`. -/
def ByteSize.Five : ByteSize := ⟨5⟩
/-- Enumerator `ByteSize::Six = 6`. -/
def ByteSize.Six : ByteSize := ⟨6⟩
/-- Enumerator `ByteSize::Seven = 7`. -/
def ByteSize.Seven : ByteSize := ⟨7⟩
/-- Enumerator `ByteSize::Eight = 8`. -/
def ByteSize.Eight : ByteSize := ⟨8⟩

/-- The scoped enumeration `StopBits : std::uint8_t` ("Number of stop bits"). -/
structure StopBits where
  val : Nat
deriving DecidableEq, Repr

/-- Enumerator `StopBits::One = 1`. -/
def StopBits.One : StopBits := ⟨1⟩
/-- Enumerator `StopBits::Two = 2`. -/
def StopBits.Two : StopBits := ⟨2⟩

/-- The scoped enumeration `FlowControl : std::uint8_t`. -/
structure FlowControl where
  val : Nat
deriving DecidableEq, Repr

/-- Enumerator `FlowControl::None` (0). -/
def FlowControl.None : FlowControl := ⟨0⟩
/-- Enumerator `FlowControl::Software` (1). -/
def FlowControl.Software : FlowControl := ⟨1⟩
/-- Enumerator `FlowControl::Hardware` (2). -/
def FlowControl.Hardware : FlowControl := ⟨2⟩

/-- The aggregate `Timeout`: five `std::chrono::milliseconds` with their default member
initialisers. -/
structure Timeout where
  read_interval_timeout : Int := 50
  read_total_timeout_constant : Int := 50
  read_total_timeout_multiplier : Int := 50
  write_total_timeout_constant : Int := 50
  write_total_timeout_multiplier : Int := 10
deriving DecidableEq, Repr

/-! ## The object (serial.hpp 267-276) -/

/-- The data members of `class Serial`, with their default member initialisers; a
default-constructed `Serial` (`Serial() = default`) is `{}`. -/
structure Serial where
  m_port : List Nat := []
  m_timeout : Timeout := {}
  m_baud_rate : Nat := 0
  m_byte_size : ByteSize := ⟨0⟩
  m_parity : Parity := ⟨0⟩
  m_stop_bits : StopBits := ⟨0⟩
  m_flow_control : FlowControl := ⟨0⟩
  m_native_handle : Nat := 0
deriving DecidableEq, Repr

/-- The accessor `native_handle()`. -/
def Serial.native_handle (self : Serial) : Nat := self.m_native_handle

/-! ## The operating system -/

/-- The fields of the Win32 `DCB` that `_open` assigns; every other field stays at the zero
of `= {0}`. -/
structure DCB where
  DCBlength : Nat
  BaudRate : Nat
  ByteSize : Nat
  Parity : Nat
  StopBits : Nat
deriving DecidableEq, Repr

/-- The Win32 `COMMTIMEOUTS`: five `DWORD` fields, in milliseconds. -/
structure COMMTIMEOUTS where
  ReadIntervalTimeout : Nat
  ReadTotalTimeoutMultiplier : Nat
  ReadTotalTimeoutConstant : Nat
  WriteTotalTimeoutMultiplier : Nat
  WriteTotalTimeoutConstant : Nat
deriving DecidableEq, Repr

/-- The implicit conversion of a `std::size_t` to a `DWORD`: the value modulo 2^32. -/
def DWORD_of_size (n : Nat) : Nat := n % 4294967296

/-- The implicit conversion of a signed tick count (`milliseconds::count()`) to a `DWORD`: the
value modulo 2^32, so that -1 becomes 4294967295. -/
def DWORD_of_ticks (t : Int) : Nat := (t % 4294967296).toNat

/-- Win32 `NOPARITY`. -/
def NOPARITY : Nat := 0
/-- Win32 `ODDPARITY`. -/
def ODDPARITY : Nat := 1
/-- Win32 `EVENPARITY`. -/
def EVENPARITY : Nat := 2
/-- Win32 `ONESTOPBIT`: one stop bit. -/
def ONESTOPBIT : Nat := 0
/-- Win32 `ONE5STOPBITS`: one and a half stop bits. -/
def ONE5STOPBITS : Nat := 1
/-- Win32 `TWOSTOPBITS`: two stop bits. -/
def TWOSTOPBITS : Nat := 2
/-- Win32 `INVALID_HANDLE_VALUE`, the all-ones pointer `(HANDLE)-1` that `CreateFile` returns
when it fails (written here for 64-bit pointers). -/
def INVALID_HANDLE_VALUE : Nat := 2 ^ 64 - 1
/-- The value of `sizeof(DCB)`. -/
def sizeof_DCB : Nat := 28

/-- One call into the operating system, with the arguments that vary. -/
inductive Call where
  | CreateFile (lpFileName : List Nat)
  | SetCommState (hFile : Nat) (dcb : DCB)
  | SetCommTimeouts (hFile : Nat) (timeouts : COMMTIMEOUTS)
  | CloseHandle (hObject : Nat)
  | WriteFile (hFile : Nat) (buffer : List Nat) (nNumberOfBytesToWrite : Nat)
  | ReadFile (hFile : Nat) (nNumberOfBytesToRead : Nat)
deriving DecidableEq, Repr

/-- How the operating system answers.  `CreateFile` gives the returned handle; `WriteFile`
gives the `BOOL` result and the count stored through `lpNumberOfBytesWritten`; `ReadFile`
gives the `BOOL` result, the count stored through `lpNumberOfBytesRead` and the bytes put
in the buffer.  The first argument of these three is the list of calls made so far.  The two
string conversions give the converted string. -/
structure Win32 where
  MultiByteToWideChar : List Nat → List Nat
  WideCharToMultiByte : List Nat → List Nat
  CreateFile : List Call → List Nat → Nat
  WriteFile : List Call → Nat → List Nat → Nat → Bool × Nat
  ReadFile : List Call → Nat → Nat → Bool × Nat × List Nat

/-- A C++ call returns a value in a final state, or leaves through an exception in a final
state. -/
inductive Outcome (ρ σ : Type) where
  | returned (value : ρ) (state : σ)
  | threw (state : σ)
deriving DecidableEq, Repr

/-- How many times a handle was passed to `CloseHandle`. -/
def releases (h : Nat) (calls : List Call) : Nat :=
  calls.count (Call.CloseHandle h)

/-- How many `CloseHandle` calls were issued at all. -/
def release_calls : List Call → Nat
  | [] => 0
  | Call.CloseHandle _ :: rest => release_calls rest + 1
  | _ :: rest => release_calls rest

/-! ## String helpers (serial.win.cpp 44-58) -/

/-- A character pointer read as a NUL-terminated string: the units before the first zero. -/
def c_str (units : List Nat) : List Nat :=
  units.takeWhile (fun u => decide (u ≠ 0))

/-- The function `utf8_encode`: the string `WideCharToMultiByte(CP_UTF8, ...)` produces. -/
def utf8_encode (os : Win32) (wstring : List Nat) : List Nat :=
  os.WideCharToMultiByte wstring

/-- The function `wide_encode`: the string `MultiByteToWideChar(CP_UTF8, ...)` produces. -/
def wide_encode (os : Win32) (string : List Nat) : List Nat :=
  os.MultiByteToWideChar string

/-! ## Lifecycle (serial.win.cpp 107-156, serial.cpp 29-100) -/

/-- The `DCB` that `_open` fills in: `DCBlength`, `BaudRate`, and the three enumerations
through `static_cast<std::uint8_t>`. -/
def Serial.serial_parameters (self : Serial) : DCB :=
  { DCBlength := sizeof_DCB
    BaudRate := self.m_baud_rate
    ByteSize := self.m_byte_size.val
    StopBits := self.m_stop_bits.val
    Parity := self.m_parity.val }

/-- The `COMMTIMEOUTS` that `_open` fills in from `m_timeout`: each `count()` is stored in a
`DWORD` field. -/
def Serial.timeout (self : Serial) : COMMTIMEOUTS :=
  { ReadIntervalTimeout := DWORD_of_ticks self.m_timeout.read_interval_timeout
    ReadTotalTimeoutConstant := DWORD_of_ticks self.m_timeout.read_total_timeout_constant
    ReadTotalTimeoutMultiplier := DWORD_of_ticks self.m_timeout.read_total_timeout_multiplier
    WriteTotalTimeoutConstant := DWORD_of_ticks self.m_timeout.write_total_timeout_constant
    WriteTotalTimeoutMultiplier :=
      DWORD_of_ticks self.m_timeout.write_total_timeout_multiplier }

/-- The first argument `_open` gives `CreateFile`: the wide encoding of the four bytes of the
raw literal (backslash, backslash, dot, backslash) followed by `m_port`, through `c_str()`. -/
def Serial.device_path (os : Win32) (self : Serial) : List Nat :=
  c_str (wide_encode os ([92, 92, 46, 92] ++ self.m_port))

/-- The member `_open`: `CreateFile` on the device path, then `SetCommState` with the `DCB`,
then `SetCommTimeouts`, then the handle is stored.  No result is inspected. -/
def Serial._open (os : Win32) (self : Serial) (calls : List Call) :
    Outcome Unit (Serial × List Call) :=
  let serial_handle := os.CreateFile calls (Serial.device_path os self)
  let calls1 := calls ++ [Call.CreateFile (Serial.device_path os self)]
  let calls2 := calls1 ++ [Call.SetCommState serial_handle (Serial.serial_parameters self)]
  let calls3 := calls2 ++ [Call.SetCommTimeouts serial_handle (Serial.timeout self)]
  Outcome.returned () ({ self with m_native_handle := serial_handle }, calls3)

/-- The constructor `Serial(port, baud_rate, byte_size, parity, stop_bits, flow_control,
timeout)`: the members are initialised from the arguments (the handle from its default
member initialiser) and the body calls `_open`. -/
def Serial.construct (os : Win32) (port : List Nat) (baud_rate : Nat) (byte_size : ByteSize)
    (parity : Parity) (stop_bits : StopBits) (flow_control : FlowControl) (timeout : Timeout)
    (calls : List Call) : Outcome Unit (Serial × List Call) :=
  Serial._open os
    { m_port := port
      m_baud_rate := baud_rate
      m_byte_size := byte_size
      m_parity := parity
      m_stop_bits := stop_bits
      m_flow_control := flow_control
      m_timeout := timeout
      m_native_handle := 0 }
    calls

/-- The move constructor: every member named in its initialiser list is taken from `rhs`,
`m_timeout` is not named there and gets its default member initialiser, and the body nulls
the handle of `rhs`.  The result is the new object and `rhs` afterwards (its moved-from
`m_port` is left empty). -/
def Serial.move_construct (rhs : Serial) : Serial × Serial :=
  ({ m_port := rhs.m_port
     m_timeout := {}
     m_baud_rate := rhs.m_baud_rate
     m_byte_size := rhs.m_byte_size
     m_parity := rhs.m_parity
     m_stop_bits := rhs.m_stop_bits
     m_flow_control := rhs.m_flow_control
     m_native_handle := rhs.m_native_handle },
   { rhs with m_port := [], m_native_handle := 0 })

/-- The member `open`: the test of `m_native_handle` guards an empty block (its only content
is a comment), then the members are overwritten and `_open` runs. -/
def Serial.open (os : Win32) (self : Serial) (port : List Nat) (baudrate : Nat)
    (byte_size : ByteSize) (parity : Parity) (stop_bits : StopBits)
    (flow_control : FlowControl) (timeout : Timeout) (calls : List Call) :
    Outcome Unit (Serial × List Call) :=
  let self0 := if self.m_native_handle ≠ 0 then self else self
  Serial._open os
    { self0 with
      m_port := port
      m_baud_rate := baudrate
      m_byte_size := byte_size
      m_parity := parity
      m_stop_bits := stop_bits
      m_flow_control := flow_control
      m_timeout := timeout }
    calls

/-- The move assignment `*this = std::move(rhs)` on a store of objects indexed by address:
nothing happens when both addresses are the same; otherwise every member of the object at
`lhs` is overwritten with the member of the object at `rhs`, whose moved-from `m_port` is
left empty and whose other members are not written. -/
def Serial.operator_assign (objects : Nat → Serial) (lhs rhs : Nat) : Nat → Serial :=
  if lhs = rhs then objects
  else
    Function.update
      (Function.update objects lhs
        { m_port := (objects rhs).m_port
          m_baud_rate := (objects rhs).m_baud_rate
          m_byte_size := (objects rhs).m_byte_size
          m_parity := (objects rhs).m_parity
          m_stop_bits := (objects rhs).m_stop_bits
          m_flow_control := (objects rhs).m_flow_control
          m_timeout := (objects rhs).m_timeout
          m_native_handle := (objects rhs).m_native_handle })
      rhs { objects rhs with m_port := [] }

/-- The member `close`: a non-null handle is passed to `CloseHandle` and nulled. -/
def Serial.close (self : Serial) (calls : List Call) : Outcome Unit (Serial × List Call) :=
  if self.m_native_handle ≠ 0 then
    Outcome.returned ()
      ({ self with m_native_handle := 0 }, calls ++ [Call.CloseHandle self.m_native_handle])
  else
    Outcome.returned () (self, calls)

/-- The destructor: it calls `close`. -/
def Serial.destroy (self : Serial) (calls : List Call) : Outcome Unit (Serial × List Call) :=
  Serial.close self calls

/-- The state an outcome ends in. -/
def Outcome.state {ρ σ : Type} : Outcome ρ σ → σ
  | Outcome.returned _ s => s
  | Outcome.threw s => s

/-- Whether the call left through an exception. -/
def Outcome.signalled {ρ σ : Type} : Outcome ρ σ → Bool
  | Outcome.returned _ _ => false
  | Outcome.threw _ => true

/-- The value a call returned, if it returned. -/
def Outcome.value {ρ σ : Type} : Outcome ρ σ → Option ρ
  | Outcome.returned v _ => some v
  | Outcome.threw _ => none

/-! ## Data path (serial.win.cpp 145-163, serial.hpp 224-228) -/

/-- The member `write(data, bytes_to_write)`: one `WriteFile` on the stored handle; the value
returned is the count stored through `lpNumberOfBytesWritten`, the `BOOL` result is dropped.
`bytes_to_write` is a `std::size_t` passed to the `DWORD` parameter
`nNumberOfBytesToWrite`.  `data` is the memory readable from the pointer, of which the call
reads as many bytes as it is asked for. -/
def Serial.write (os : Win32) (self : Serial) (calls : List Call) (data : List Nat)
    (bytes_to_write : Nat) : Outcome Nat (Serial × List Call) :=
  let nNumberOfBytesToWrite := DWORD_of_size bytes_to_write
  let result :=
    os.WriteFile calls self.m_native_handle (data.take nNumberOfBytesToWrite)
      nNumberOfBytesToWrite
  let bytes_written := result.2
  Outcome.returned bytes_written
    (self,
     calls ++
       [Call.WriteFile self.m_native_handle (data.take nNumberOfBytesToWrite)
          nNumberOfBytesToWrite])

/-- The overload `write<std::string>(data)`: `write(data.data(), data.size())`.  The memory at
`data.data()` is the bytes of the string followed by the terminating zero byte. -/
def Serial.write_string (os : Win32) (self : Serial) (calls : List Call) (data : List Nat) :
    Outcome Nat (Serial × List Call) :=
  Serial.write os self calls (data ++ [0]) data.length

/-- The member `read(data, max_bytes)`: one `ReadFile` on the stored handle; the value returned
is the count stored through `lpNumberOfBytesRead`, the `BOOL` result is dropped.  `max_bytes`
is a `std::size_t` passed to the `DWORD` parameter `nNumberOfBytesToRead`.  The second
component of the value is the caller's buffer afterwards. -/
def Serial.read (os : Win32) (self : Serial) (calls : List Call) (data : List Nat)
    (max_bytes : Nat) : Outcome (Nat × List Nat) (Serial × List Call) :=
  let nNumberOfBytesToRead := DWORD_of_size max_bytes
  let result := os.ReadFile calls self.m_native_handle nNumberOfBytesToRead
  let bytes_to_read := result.2.1
  Outcome.returned (bytes_to_read, result.2.2 ++ data.drop result.2.2.length)
    (self, calls ++ [Call.ReadFile self.m_native_handle nNumberOfBytesToRead])

/-! ## Enumeration (serial.win.cpp 60-105) -/

/-- The comparison `operator<` of two `std::string`: the first differing byte decides, and a
proper prefix is smaller. -/
def string_lt : List Nat → List Nat → Bool
  | [], [] => false
  | [], _ :: _ => true
  | _ :: _, [] => false
  | a :: as, b :: bs => if a < b then true else if b < a then false else string_lt as bs

/-- One step of sorting: `x` is placed before the first element it is smaller than. -/
def sort_insert (x : List Nat) : List (List Nat) → List (List Nat)
  | [] => [x]
  | y :: ys => if string_lt x y then x :: y :: ys else y :: sort_insert x ys

/-- The call `std::sort(begin, end)` on a vector of strings, compared with `operator<`: the
elements rearranged into ascending order.  Strings that compare equivalent are equal, so the
ascending arrangement is unique and insertion into place computes it. -/
def std_sort : List (List Nat) → List (List Nat)
  | [] => []
  | x :: xs => sort_insert x (std_sort xs)

/-- What the operating system answers for one device for which `SetupDiEnumDeviceInfo`
returned true: `hkey` is the value `SetupDiOpenDevRegKey` returns; `ret` is the value
`RegQueryValueEx` returns for the value `PortName` (zero is `ERROR_SUCCESS`); `stored` is what
that query writes at the start of the caller's buffer (nothing when it stores no data). -/
structure Device where
  hkey : Nat
  ret : Int
  stored : List Nat
deriving DecidableEq, Repr

/-- What the operating system answers to the enumeration: the value `SetupDiGetClassDevs`
returns, and the devices for which `SetupDiEnumDeviceInfo` returns true at member index
0, 1, 2, ... before it first returns false. -/
structure DeviceSource where
  device_info_set : Nat
  members : List Device
deriving DecidableEq, Repr

/-- The loop `while (SetupDiEnumDeviceInfo(...))` of `list_ports`, over the devices still to
come: `port_name` is the buffer `TCHAR port_name[MAX_PATH]`, which lives across iterations,
`devices` the vector built so far.  When `hkey` is non-null the query runs into the buffer,
its result `ret` is not looked at, and the buffer, read as a NUL-terminated wide string, is
encoded and pushed. -/
def list_ports_loop (os : Win32) :
    List Device → List Nat → List (List Nat) → List (List Nat)
  | [], _, devices => devices
  | d :: rest, port_name, devices =>
    if d.hkey ≠ 0 then
      let port_name1 := d.stored ++ port_name.drop d.stored.length
      list_ports_loop os rest port_name1 (devices ++ [utf8_encode os (c_str port_name1)])
    else
      list_ports_loop os rest port_name devices

/-- The vector `devices` of `list_ports` just before it is sorted.  `port_name` is the content
of the uninitialised buffer. -/
def list_ports_collected (os : Win32) (source : DeviceSource) (port_name : List Nat) :
    List (List Nat) :=
  if source.device_info_set ≠ 0 then list_ports_loop os source.members port_name [] else []

/-- The function `list_ports`: the collected names, sorted. -/
def list_ports (os : Win32) (source : DeviceSource) (port_name : List Nat) :
    List (List Nat) :=
  std_sort (list_ports_collected os source port_name)

/-! ## Concrete values used in the examples -/

/-- An operating system whose string conversions copy code units below 128 unchanged (which
is what the UTF-8 conversions do on ASCII text), whose `CreateFile` fails, and whose
`WriteFile` and `ReadFile` fail having stored a count of zero. -/
def failing_os : Win32 :=
  { MultiByteToWideChar := fun s => s
    WideCharToMultiByte := fun w => w
    CreateFile := fun _ _ => INVALID_HANDLE_VALUE
    WriteFile := fun _ _ _ _ => (false, 0)
    ReadFile := fun _ _ _ => (false, 0, []) }

/-- An operating system that opens every device, handing out the handles 1, 2, 3, ... (one
more than the number of calls made so far), writes all the bytes requested and reads
nothing. -/
def working_os : Win32 :=
  { MultiByteToWideChar := fun s => s
    WideCharToMultiByte := fun w => w
    CreateFile := fun calls _ => calls.length + 1
    WriteFile := fun _ _ _ n => (true, n)
    ReadFile := fun _ _ _ => (true, 0, []) }

/-- The bytes of the text COM1. -/
def COM1 : List Nat := [67, 79, 77, 49]
/-- The bytes of the text COM2. -/
def COM2 : List Nat := [67, 79, 77, 50]
/-- The bytes of the text COM10. -/
def COM10 : List Nat := [67, 79, 77, 49, 48]

/-- A device whose registry key opens and whose `PortName` query succeeds, storing the name
and its terminating zero. -/
def named_device (name : List Nat) : Device :=
  { hkey := 1, ret := 0, stored := name ++ [0] }

/-- A device source that delivers the given names, in that order. -/
def source_of_names (names : List (List Nat)) : DeviceSource :=
  { device_info_set := 1, members := names.map named_device }

/-- An object that is Open on COM1 at 9600 baud with handle 7 and a read interval timeout of
100 ms. -/
def open_port : Serial :=
  { m_port := COM1
    m_timeout := { read_interval_timeout := 100 }
    m_baud_rate := 9600
    m_byte_size := ByteSize.Eight
    m_parity := Parity.None
    m_stop_bits := StopBits.One
    m_flow_control := FlowControl.None
    m_native_handle := 7 }

/-- A store with `open_port` at address 1 and default-constructed objects elsewhere. -/
def two_objects : Nat → Serial :=
  fun address => if address = 1 then open_port else {}

/-! ## The order of `operator<` -/

theorem string_lt_irrefl (a : List Nat) : string_lt a a = false := by
  induction a with
  | nil => rfl
  | cons x xs ih => simp [string_lt, ih]

theorem string_lt_asymm : ∀ a b : List Nat, string_lt a b = true → string_lt b a = false
  | [], [], h => by simp [string_lt] at h
  | [], _ :: _, _ => by simp [string_lt]
  | _ :: _, [], h => by simp [string_lt] at h
  | x :: xs, y :: ys, h => by
    simp only [string_lt] at h ⊢
    by_cases hxy : x < y
    · have hyx : ¬ y < x := by omega
      simp [hyx, hxy]
    · by_cases hyx : y < x
      · simp [hxy, hyx] at h
      · simp only [hxy, hyx, if_false] at h ⊢
        exact string_lt_asymm xs ys h

/-- Not being greater is transitive: if `b` is not below `a` and `c` is not below `b` then `c`
is not below `a`. -/
theorem string_not_lt_trans : ∀ a b c : List Nat,
    string_lt b a = false → string_lt c b = false → string_lt c a = false
  | [], [], [], _, _ => by simp [string_lt]
  | [], [], _ :: _, _, _ => by simp [string_lt]
  | [], _ :: _, [], _, h => by simp [string_lt] at h
  | [], _ :: _, _ :: _, _, _ => by simp [string_lt]
  | _ :: _, [], _, h, _ => by simp [string_lt] at h
  | _ :: _, _ :: _, [], _, h => by simp [string_lt] at h
  | x :: xs, y :: ys, z :: zs, h1, h2 => by
    simp only [string_lt] at h1 h2 ⊢
    by_cases hyx : y < x
    · simp [hyx] at h1
    · by_cases hzy : z < y
      · simp [hzy] at h2
      · simp only [hyx, hzy, if_false] at h1 h2
        by_cases hxy : x < y
        · have hzx : ¬ z < x := by omega
          have hxz : x < z := by omega
          simp [hzx, hxz]
        · by_cases hyz : y < z
          · have hzx : ¬ z < x := by omega
            have hxz : x < z := by omega
            simp [hzx, hxz]
          · simp only [hxy, hyz, if_false] at h1 h2
            have hzx : ¬ z < x := by omega
            have hxz : ¬ x < z := by omega
            simp only [hzx, hxz, if_false]
            exact string_not_lt_trans xs ys zs h1 h2

/-- The order `string_lt` is the lexicographic order of the byte lists. -/
theorem string_lt_iff_lex : ∀ a b : List Nat,
    string_lt a b = true ↔ List.Lex (fun x y : Nat => x < y) a b
  | [], [] => by simp [string_lt]
  | [], _ :: _ => by simp [string_lt, List.Lex.nil]
  | _ :: _, [] => by simp [string_lt]
  | x :: xs, y :: ys => by
    simp only [string_lt]
    by_cases hxy : x < y
    · simp only [hxy, if_true, true_iff]
      exact List.Lex.rel hxy
    · by_cases hyx : y < x
      · simp only [hxy, hyx, if_false, if_true]
        constructor
        · intro h; cases h
        · intro h
          cases h with
          | cons h => omega
          | rel h => omega
      · have hEq : x = y := by omega
        subst hEq
        simp only [hxy, if_false]
        rw [string_lt_iff_lex xs ys]
        constructor
        · intro h; exact List.Lex.cons h
        · intro h
          cases h with
          | cons h => exact h
          | rel h => omega

/-! ## Sorting -/

theorem sort_insert_perm (x : List Nat) (l : List (List Nat)) :
    (sort_insert x l).Perm (x :: l) := by
  induction l with
  | nil => exact List.Perm.refl _
  | cons y ys ih =>
    unfold sort_insert
    by_cases h : string_lt x y = true
    · simp [h]
    · simp only [h]
      exact (List.Perm.cons y ih).trans (List.Perm.swap x y ys)

theorem std_sort_perm (l : List (List Nat)) : (std_sort l).Perm l := by
  induction l with
  | nil => exact List.Perm.refl _
  | cons x xs ih =>
    unfold std_sort
    exact (sort_insert_perm x (std_sort xs)).trans (List.Perm.cons x ih)

theorem sort_insert_sorted (x : List Nat) (l : List (List Nat))
    (hl : l.Pairwise (fun a b => string_lt b a = false)) :
    (sort_insert x l).Pairwise (fun a b => string_lt b a = false) := by
  induction l with
  | nil => simp [sort_insert]
  | cons y ys ih =>
    have hy := List.pairwise_cons.mp hl
    unfold sort_insert
    by_cases h : string_lt x y = true
    · simp only [h, if_true]
      refine List.pairwise_cons.mpr ⟨?_, hl⟩
      intro b hb
      have hyx : string_lt y x = false := string_lt_asymm x y h
      rcases List.mem_cons.mp hb with hb | hb
      · subst hb; exact hyx
      · exact string_not_lt_trans x y b hyx (hy.1 b hb)
    · simp only [h]
      have hxy : string_lt x y = false := by simpa using h
      refine List.pairwise_cons.mpr ⟨?_, ih hy.2⟩
      intro b hb
      have hb2 : b ∈ x :: ys := (sort_insert_perm x ys).subset hb
      rcases List.mem_cons.mp hb2 with hb2 | hb2
      · subst hb2; exact hxy
      · exact hy.1 b hb2

theorem std_sort_sorted (l : List (List Nat)) :
    (std_sort l).Pairwise (fun a b => string_lt b a = false) := by
  induction l with
  | nil => simp [std_sort]
  | cons x xs ih =>
    unfold std_sort
    exact sort_insert_sorted x (std_sort xs) ih

theorem string_eq_of_not_lt : ∀ a b : List Nat,
    string_lt a b = false → string_lt b a = false → a = b
  | [], [], _, _ => rfl
  | [], _ :: _, h, _ => by simp [string_lt] at h
  | _ :: _, [], _, h => by simp [string_lt] at h
  | x :: xs, y :: ys, h1, h2 => by
    simp only [string_lt] at h1 h2
    by_cases hxy : x < y
    · simp [hxy] at h1
    · by_cases hyx : y < x
      · simp [hyx] at h2
      · simp only [hxy, hyx, if_false] at h1 h2
        have hEq : x = y := by omega
        rw [hEq, string_eq_of_not_lt xs ys h1 h2]

/-- The ascending arrangement is unique: every ascending rearrangement of a vector of strings
is the one `std_sort` computes, so the result of `std::sort` does not depend on the sorting
algorithm. -/
theorem std_sort_unique (l sorted : List (List Nat)) (hp : sorted.Perm l)
    (hs : sorted.Pairwise (fun a b => string_lt b a = false)) : sorted = std_sort l := by
  haveI : IsAntisymm (List Nat) (fun a b => string_lt b a = false) :=
    ⟨fun a b hab hba => string_eq_of_not_lt a b hba hab⟩
  exact List.eq_of_perm_of_sorted (hp.trans (std_sort_perm l).symm) hs (std_sort_sorted l)

/-! ## Ownership and lifecycle -/

theorem release_calls_append_close (calls : List Call) (h : Nat) :
    release_calls (calls ++ [Call.CloseHandle h]) = release_calls calls + 1 := by
  induction calls with
  | nil => rfl
  | cons c cs ih => cases c <;> simp [release_calls, ih]

theorem releases_append_close (calls : List Call) (h : Nat) :
    releases h (calls ++ [Call.CloseHandle h]) = releases h calls + 1 := by
  simp [releases, List.count_append]

/-- C1. Move assignment from an Open source: in the store `two_objects` (source at address 1,
Open with handle 7; destination at address 0, default-constructed) the assignment gives the
destination the handle 7 and leaves the source holding 7 as well, not null; destroying the
source and then the destination passes the handle 7 to `CloseHandle` twice, not once. -/
theorem move_assign_keeps_source_handle :
    (Serial.operator_assign two_objects 0 1 0).m_native_handle = 7 ∧
    (Serial.operator_assign two_objects 0 1 1).m_native_handle = 7 ∧
    (Serial.operator_assign two_objects 0 1 1).m_native_handle ≠ 0 ∧
    releases 7
      (Serial.destroy (Serial.operator_assign two_objects 0 1 0)
        (Serial.destroy (Serial.operator_assign two_objects 0 1 1) []).state.2).state.2 = 2 := by
  decide

/-- C2. `open` on an Open instance: an object constructed on COM1 by `working_os` holds the
handle 1; `open` for COM2 at 115200 baud on it returns without signalling, the object then
holds the new handle 4 and the new port and baud rate, and the handle 1 was never passed to
`CloseHandle`. -/
theorem open_on_open_replaces_handle :
    (Serial.construct working_os COM1 9600 ByteSize.Eight Parity.None StopBits.One
        FlowControl.None {} []).state.1.m_native_handle = 1 ∧
    (Serial.open working_os
        (Serial.construct working_os COM1 9600 ByteSize.Eight Parity.None StopBits.One
          FlowControl.None {} []).state.1
        COM2 115200 ByteSize.Seven Parity.Even StopBits.Two FlowControl.None {}
        (Serial.construct working_os COM1 9600 ByteSize.Eight Parity.None StopBits.One
          FlowControl.None {} []).state.2)
      = Outcome.returned ()
          ({ m_port := COM2
             m_timeout := {}
             m_baud_rate := 115200
             m_byte_size := ByteSize.Seven
             m_parity := Parity.Even
             m_stop_bits := StopBits.Two
             m_flow_control := FlowControl.None
             m_native_handle := 4 },
           [Call.CreateFile ([92, 92, 46, 92] ++ COM1),
            Call.SetCommState 1 ⟨28, 9600, 8, 0, 1⟩,
            Call.SetCommTimeouts 1 ⟨50, 50, 50, 10, 50⟩,
            Call.CreateFile ([92, 92, 46, 92] ++ COM2),
            Call.SetCommState 4 ⟨28, 115200, 7, 2, 2⟩,
            Call.SetCommTimeouts 4 ⟨50, 50, 50, 10, 50⟩]) := by
  decide

/-- C3, the claim at a concrete input: `failing_os` answers `CreateFile` with
`INVALID_HANDLE_VALUE`, and constructing on COM1 signals nothing and leaves the native handle
at that value, which is not null. -/
theorem construct_refused_counterexample :
    failing_os.CreateFile [] (Serial.device_path failing_os { m_port := COM1 })
      = INVALID_HANDLE_VALUE ∧
    (Serial.construct failing_os COM1 9600 ByteSize.Eight Parity.None StopBits.One
        FlowControl.None {} []).signalled = false ∧
    (Serial.construct failing_os COM1 9600 ByteSize.Eight Parity.None StopBits.One
        FlowControl.None {} []).state.1.m_native_handle = INVALID_HANDLE_VALUE ∧
    (Serial.construct failing_os COM1 9600 ByteSize.Eight Parity.None StopBits.One
        FlowControl.None {} []).state.1.m_native_handle ≠ 0 := by
  decide

/-- C3, amended. For every configuration and whatever `CreateFile` answers, construction and
`open` return without signalling an error: they store the configuration, issue `CreateFile`,
`SetCommState` and `SetCommTimeouts` (with each tick count converted to a `DWORD`) once each,
and the native handle is afterwards the value `CreateFile` returned. -/
theorem open_returns_whatever_CreateFile_answers (os : Win32) (self : Serial)
    (port : List Nat) (baud_rate : Nat) (byte_size : ByteSize) (parity : Parity)
    (stop_bits : StopBits) (flow_control : FlowControl) (timeout : Timeout)
    (calls : List Call) :
    (Serial.construct os port baud_rate byte_size parity stop_bits flow_control timeout calls
      = Outcome.returned ()
          ({ m_port := port
             m_timeout := timeout
             m_baud_rate := baud_rate
             m_byte_size := byte_size
             m_parity := parity
             m_stop_bits := stop_bits
             m_flow_control := flow_control
             m_native_handle := os.CreateFile calls (Serial.device_path os { m_port := port }) },
           calls ++
             [Call.CreateFile (Serial.device_path os { m_port := port }),
              Call.SetCommState (os.CreateFile calls (Serial.device_path os { m_port := port }))
                ⟨sizeof_DCB, baud_rate, byte_size.val, parity.val, stop_bits.val⟩,
              Call.SetCommTimeouts (os.CreateFile calls (Serial.device_path os { m_port := port }))
                ⟨DWORD_of_ticks timeout.read_interval_timeout,
                 DWORD_of_ticks timeout.read_total_timeout_multiplier,
                 DWORD_of_ticks timeout.read_total_timeout_constant,
                 DWORD_of_ticks timeout.write_total_timeout_multiplier,
                 DWORD_of_ticks timeout.write_total_timeout_constant⟩])) ∧
    (Serial.construct os port baud_rate byte_size parity stop_bits flow_control timeout
        calls).signalled = false ∧
    Serial.open os self port baud_rate byte_size parity stop_bits flow_control timeout calls
      = Serial.construct os port baud_rate byte_size parity stop_bits flow_control timeout calls := by
  refine ⟨?_, ?_, ?_⟩
  · simp [Serial.construct, Serial._open, Serial.device_path, Serial.serial_parameters,
      Serial.timeout]
  · simp [Serial.construct, Serial._open, Outcome.signalled]
  · simp [Serial.open, Serial.construct, Serial._open, Serial.device_path,
      Serial.serial_parameters, Serial.timeout]

/-- C4. `close` is idempotent: on every object and after any calls it returns (no error),
the native handle is then null, and `CloseHandle` was issued once on the old handle if that
was not null and not at all otherwise; a second `close` returns in the very same state, so
two calls issue at most one release; the destructor releases the same way. -/
theorem close_idempotent (self : Serial) (calls : List Call) :
    Serial.close self calls
      = Outcome.returned ()
          ({ self with m_native_handle := 0 },
           if self.m_native_handle ≠ 0 then calls ++ [Call.CloseHandle self.m_native_handle]
           else calls) ∧
    Serial.close (Serial.close self calls).state.1 (Serial.close self calls).state.2
      = Outcome.returned () (Serial.close self calls).state ∧
    release_calls
        (Serial.close (Serial.close self calls).state.1 (Serial.close self calls).state.2).state.2
      = release_calls calls + (if self.m_native_handle ≠ 0 then 1 else 0) ∧
    releases self.m_native_handle (Serial.destroy self calls).state.2
      = releases self.m_native_handle calls + (if self.m_native_handle ≠ 0 then 1 else 0) ∧
    Serial.destroy self calls = Serial.close self calls := by
  by_cases h : self.m_native_handle = 0
  · have hs : ({ self with m_native_handle := 0 } : Serial) = self := by
      cases self; simp_all
    simp [Serial.close, Serial.destroy, Outcome.state, h, hs]
  · simp [Serial.close, Serial.destroy, Outcome.state, h, release_calls_append_close,
      releases_append_close]

/-- C5. Move construction from `open_port` (read interval timeout 100 ms, handle 7): the new
object gets the handle, port, baud rate, byte size, parity, stop bits and flow control of the
source and the source's handle becomes null, but the new object's timeout is the default one
(read interval 50 ms), not the source's. -/
theorem move_construct_drops_timeout :
    (Serial.move_construct open_port).1.m_native_handle = open_port.m_native_handle ∧
    (Serial.move_construct open_port).1.m_port = open_port.m_port ∧
    (Serial.move_construct open_port).1.m_baud_rate = open_port.m_baud_rate ∧
    (Serial.move_construct open_port).1.m_byte_size = open_port.m_byte_size ∧
    (Serial.move_construct open_port).1.m_parity = open_port.m_parity ∧
    (Serial.move_construct open_port).1.m_stop_bits = open_port.m_stop_bits ∧
    (Serial.move_construct open_port).1.m_flow_control = open_port.m_flow_control ∧
    (Serial.move_construct open_port).2.m_native_handle = 0 ∧
    open_port.m_timeout.read_interval_timeout = 100 ∧
    (Serial.move_construct open_port).1.m_timeout.read_interval_timeout = 50 ∧
    (Serial.move_construct open_port).1.m_timeout ≠ open_port.m_timeout := by
  decide

/-! ## Enumeration -/

theorem c_str_terminated (name rest : List Nat) (h : 0 ∉ name) :
    c_str (name ++ 0 :: rest) = name := by
  induction name with
  | nil => simp [c_str]
  | cons u us ih =>
    have hu : u ≠ 0 := fun e => h (by simp [e])
    have hus : 0 ∉ us := fun m => h (List.mem_cons_of_mem u m)
    have ih2 := ih hus
    simp only [c_str] at ih2 ⊢
    rw [List.cons_append, List.takeWhile_cons, ih2]
    simp [hu]

/-- When every device opens its key and stores a NUL-terminated name, the loop appends the
encoded names, whatever the buffer held before. -/
theorem list_ports_loop_named (os : Win32) (names : List (List Nat))
    (h : ∀ name ∈ names, 0 ∉ name) (port_name : List Nat) (devices : List (List Nat)) :
    list_ports_loop os (names.map named_device) port_name devices
      = devices ++ names.map (utf8_encode os) := by
  induction names generalizing port_name devices with
  | nil => simp [list_ports_loop]
  | cons n ns ih =>
    have hn : 0 ∉ n := h n (List.mem_cons_self n ns)
    have hns : ∀ name ∈ ns, 0 ∉ name := fun name m => h name (List.mem_cons_of_mem n m)
    simp only [List.map_cons, list_ports_loop, named_device]
    simp only [List.append_assoc, List.singleton_append, c_str_terminated n _ hn]
    rw [ih hns]
    simp

/-- C6. For every device source and every initial buffer content, `list_ports` returns a
permutation of the collected names in which no element is smaller (in the byte-wise order of
`operator<`) than an element before it; the source delivering COM10, COM2, COM1 yields COM1,
COM10, COM2; a source with no devices yields the empty sequence.  The order is stated twice:
with `string_lt` and with the lexicographic order `List.Lex` of the byte lists. -/
theorem list_ports_sorted_permutation (os : Win32) (source : DeviceSource)
    (port_name : List Nat) :
    (list_ports os source port_name).Perm (list_ports_collected os source port_name) ∧
    (list_ports os source port_name).Pairwise (fun a b => string_lt b a = false) ∧
    (list_ports os source port_name).Pairwise
      (fun a b => ¬ List.Lex (fun x y : Nat => x < y) b a) ∧
    list_ports working_os (source_of_names [COM10, COM2, COM1]) port_name
      = [COM1, COM10, COM2] ∧
    list_ports os { device_info_set := source.device_info_set, members := [] } port_name
      = [] := by
  refine ⟨std_sort_perm _, std_sort_sorted _, ?_, ?_, ?_⟩
  · refine (std_sort_sorted _).imp ?_
    intro a b hab hlex
    rw [(string_lt_iff_lex b a).mpr hlex] at hab
    exact Bool.noConfusion hab
  · have hz : ∀ name ∈ [COM10, COM2, COM1], 0 ∉ name := by decide
    have hl := list_ports_loop_named working_os [COM10, COM2, COM1] hz port_name []
    have hc : list_ports_collected working_os (source_of_names [COM10, COM2, COM1]) port_name
        = [COM10, COM2, COM1] := by
      simp only [list_ports_collected, source_of_names]
      rw [if_pos (by decide), hl]
      rfl
    rw [list_ports, hc]
    decide
  · by_cases h : source.device_info_set = 0 <;>
      simp [list_ports, list_ports_collected, list_ports_loop, std_sort, h]

theorem list_ports_loop_length (os : Win32) (members : List Device) (port_name : List Nat)
    (devices : List (List Nat)) :
    (list_ports_loop os members port_name devices).length
      = devices.length + (members.filter (fun d => decide (d.hkey ≠ 0))).length := by
  induction members generalizing port_name devices with
  | nil => simp [list_ports_loop]
  | cons d ds ih =>
    by_cases h : d.hkey = 0
    · simp [list_ports_loop, h, ih]
    · simp [list_ports_loop, h, ih]
      omega

/-- C7. A device whose `PortName` query fails still contributes an entry.  With COM1 named
successfully and a second device whose query returns the error 2 and stores nothing, the
result is COM1 twice; the same happens when the second device's key fails to open and
`SetupDiOpenDevRegKey` reports it with `INVALID_HANDLE_VALUE`; a single device whose query
fails contributes whatever the uninitialised buffer held (here the unit 88); only a null
`hkey` contributes nothing.  In general the result has one entry per device whose `hkey` is
not null, whatever `ret` is. -/
theorem list_ports_pushes_on_failed_query :
    (∀ (os : Win32) (members : List Device) (port_name : List Nat),
      (list_ports os { device_info_set := 1, members := members } port_name).length
        = (members.filter (fun d => decide (d.hkey ≠ 0))).length) ∧
    list_ports working_os
        { device_info_set := 1, members := [named_device COM1, ⟨1, 2, []⟩] } []
      = [COM1, COM1] ∧
    list_ports working_os
        { device_info_set := 1, members := [named_device COM1, ⟨INVALID_HANDLE_VALUE, 6, []⟩] } []
      = [COM1, COM1] ∧
    list_ports working_os { device_info_set := 1, members := [⟨1, 2, []⟩] } [88, 0]
      = [[88]] ∧
    list_ports working_os
        { device_info_set := 1, members := [named_device COM1, ⟨0, 0, []⟩] } []
      = [COM1] := by
  refine ⟨?_, by decide, by decide, by decide, by decide⟩
  intro os members port_name
  rw [list_ports, (std_sort_perm _).length_eq]
  simp [list_ports_collected, list_ports_loop_length]

/-! ## Data path -/

/-- C8, the claim at a concrete input: `failing_os` reports failure for `WriteFile` and
`ReadFile`, yet `write` and `read` on `open_port` return a count (zero) and signal nothing. -/
theorem read_write_failure_counterexample :
    (failing_os.WriteFile [] 7 [1, 2, 3] 3).1 = false ∧
    Serial.write failing_os open_port [] [1, 2, 3] 3
      = Outcome.returned 0 (open_port, [Call.WriteFile 7 [1, 2, 3] 3]) ∧
    (failing_os.ReadFile [] 7 3).1 = false ∧
    Serial.read failing_os open_port [] [9, 9, 9] 3
      = Outcome.returned (0, [9, 9, 9]) (open_port, [Call.ReadFile 7 3]) := by
  decide

/-- C8, amended. For every object state and whatever the OS call reports, `write` and `read`
signal no error: each issues its one OS call on the stored handle, asking for the byte count
as converted to a `DWORD`, and returns the count that call stored through its out-parameter,
which is the count the OS reported when it succeeded. -/
theorem read_write_return_stored_count (os : Win32) (self : Serial) (calls : List Call)
    (data : List Nat) (count : Nat) :
    Serial.write os self calls data count
      = Outcome.returned
          (os.WriteFile calls self.m_native_handle (data.take (DWORD_of_size count))
            (DWORD_of_size count)).2
          (self,
           calls ++
             [Call.WriteFile self.m_native_handle (data.take (DWORD_of_size count))
                (DWORD_of_size count)]) ∧
    (Serial.write os self calls data count).signalled = false ∧
    (Serial.read os self calls data count).value.map Prod.fst
      = some (os.ReadFile calls self.m_native_handle (DWORD_of_size count)).2.1 ∧
    (Serial.read os self calls data count).state
      = (self, calls ++ [Call.ReadFile self.m_native_handle (DWORD_of_size count)]) ∧
    (Serial.read os self calls data count).signalled = false := by
  simp [Serial.write, Serial.read, Outcome.signalled, Outcome.value, Outcome.state]

/-- C9, the claim at a concrete input: for a string of 2^32 + 5 bytes (each 65) the requested
length that reaches `WriteFile` is 5, not the length of the string, and the buffer the OS
reads is 5 bytes. -/
theorem write_string_length_counterexample :
    (List.replicate (4294967296 + 5) 65).length = 4294967296 + 5 ∧
    Serial.write_string working_os open_port [] (List.replicate (4294967296 + 5) 65)
      = Outcome.returned 5 (open_port, [Call.WriteFile 7 [65, 65, 65, 65, 65] 5]) := by
  refine ⟨List.length_replicate _ _, ?_⟩
  have hlen : (List.replicate (4294967296 + 5) 65).length = 4294967296 + 5 :=
    List.length_replicate _ _
  have hmod : DWORD_of_size (4294967296 + 5) = 5 := by decide
  have htake : List.take 5 (List.replicate (4294967296 + 5) 65 ++ [0])
      = [65, 65, 65, 65, 65] := by
    rw [List.take_append_of_le_length (by rw [hlen]; decide), List.take_replicate]
    rfl
  simp only [Serial.write_string, Serial.write, hlen, hmod, htake]
  rfl

/-- C9, amended. For every string `s`, `write(s)` is the raw write of the bytes of `s` with
length `s.size()`: the same OS call and the same returned count.  When the length of `s` is
below 2^32, the buffer handed to `WriteFile` is exactly the bytes of `s` in order (the
terminating zero that follows them in memory is not part of it) and the requested length is
the length of `s`. -/
theorem write_string_eq_raw_write (os : Win32) (self : Serial) (calls : List Call)
    (s : List Nat) :
    Serial.write_string os self calls s = Serial.write os self calls s s.length ∧
    (s.length < 4294967296 →
      Serial.write_string os self calls s
        = Outcome.returned
            (os.WriteFile calls self.m_native_handle s s.length).2
            (self, calls ++ [Call.WriteFile self.m_native_handle s s.length])) := by
  have hle : DWORD_of_size s.length ≤ s.length := Nat.mod_le _ _
  constructor
  · simp [Serial.write_string, Serial.write, List.take_append_of_le_length hle]
  · intro h
    have hmod : DWORD_of_size s.length = s.length := Nat.mod_eq_of_lt h
    simp [Serial.write_string, Serial.write, hmod]

/-- C9, amended, at a concrete input: the three bytes 1, 2, 3 written on `open_port`. -/
theorem write_string_eq_raw_write_witness :
    [1, 2, 3].length < 4294967296 ∧
    Serial.write_string working_os open_port [] [1, 2, 3]
      = Outcome.returned
          (working_os.WriteFile [] open_port.m_native_handle [1, 2, 3] [1, 2, 3].length).2
          (open_port, [] ++ [Call.WriteFile open_port.m_native_handle [1, 2, 3] [1, 2, 3].length]) :=
  ⟨by decide, (write_string_eq_raw_write working_os open_port [] [1, 2, 3]).2 (by decide)⟩

/-! ## Configuration translation -/

/-- C10. The `DCB` that `_open` passes to `SetCommState` carries the baud rate and byte size as
configured, the parities None/Odd/Even as `NOPARITY`/`ODDPARITY`/`EVENPARITY` and
`StopBits::Two` as `TWOSTOPBITS`; but `StopBits::One` is passed as 1, which is `ONE5STOPBITS`
and not `ONESTOPBIT`. -/
theorem dcb_stop_bits_one_is_one5 (os : Win32) (self : Serial) (calls : List Call) :
    (Serial._open os self calls).state.2
      = calls ++
          [Call.CreateFile (Serial.device_path os self),
           Call.SetCommState (os.CreateFile calls (Serial.device_path os self))
             (Serial.serial_parameters self),
           Call.SetCommTimeouts (os.CreateFile calls (Serial.device_path os self))
             (Serial.timeout self)] ∧
    (Serial.serial_parameters self).BaudRate = self.m_baud_rate ∧
    (Serial.serial_parameters self).ByteSize = self.m_byte_size.val ∧
    (Serial.serial_parameters { self with m_parity := Parity.None }).Parity = NOPARITY ∧
    (Serial.serial_parameters { self with m_parity := Parity.Odd }).Parity = ODDPARITY ∧
    (Serial.serial_parameters { self with m_parity := Parity.Even }).Parity = EVENPARITY ∧
    (Serial.serial_parameters { self with m_stop_bits := StopBits.Two }).StopBits
      = TWOSTOPBITS ∧
    (Serial.serial_parameters { self with m_stop_bits := StopBits.One }).StopBits
      = ONE5STOPBITS ∧
    (Serial.serial_parameters { self with m_stop_bits := StopBits.One }).StopBits
      ≠ ONESTOPBIT := by
  simp [Serial._open, Outcome.state, Serial.serial_parameters, Parity.None, Parity.Odd,
    Parity.Even, StopBits.One, StopBits.Two, NOPARITY, ODDPARITY, EVENPARITY, ONESTOPBIT,
    ONE5STOPBITS, TWOSTOPBITS]

end serial
